import Mathlib

/-!
Shallow embedding of the booking/availability engine of the
mydove-hotel-reservation-backend repository: the Money value type
(src/app/models/money.py), the booking data model (src/app/models/booking.py),
the booking repository (src/app/repositories/booking.py), the booking service
(src/app/services/booking.py) and the suite-booking orchestration
(src/app/services/hotel_suites.py).

Datetimes are embedded as integers (only their total order is used by the
engine).  The Mongo document store is embedded as explicit lists of records;
`save` on a looked-up document is replacement-by-id in the list.  A raised
Python exception is an `Except.error`; an operation returns the (possibly
updated) store together with the `Except` result, the store being returned
unchanged on every error path, exactly as an exception aborts the Python
function before any write.
-/

namespace MyDove

/-! Money (src/app/models/money.py)

Python `Money` extends `Decimal`.  A finite decimal input is a pair
`(n, e)` denoting `n * 10 ^ (-e)`; the special values Infinity, -Infinity
and NaN are separate constructors.  `Money.__new__` quantizes a finite
input to 2 decimal places with ROUND_HALF_UP (ties away from zero) and
lets the special values through unrounded. -/

/-- A decimal literal as accepted by `Decimal(str(value))`: a finite value
`n * 10 ^ (-e)`, or one of the special values. -/
inductive DecInput where
  | num (n : Int) (e : Nat)
  | posInf
  | negInf
  | nan
deriving DecidableEq

/-- `ROUND_HALF_UP` quantization of `n * 10 ^ (-e)` to 2 decimal places,
returned as an integer number of cents.  Ties round away from zero
(Python decimal ROUND_HALF_UP). -/
def quantizeCents (n : Int) (e : Nat) : Int :=
  let d : Nat := 10 ^ e
  if 0 ≤ n then Int.ofNat ((200 * n.toNat + d) / (2 * d))
  else - Int.ofNat ((200 * (-n).toNat + d) / (2 * d))

/-- The value of a `Money` object: a finite number of cents (the underlying
Decimal is always quantized to exactly 2 fractional digits), or one of the
special Decimal values that `Money.__new__` lets through unrounded. -/
inductive Money where
  | fin (cents : Int)
  | posInf
  | negInf
  | nan
deriving DecidableEq

/-- Model of `Money.__new__`: quantize a finite decimal input half-up to 2 places;
Infinity and NaN bypass quantization. -/
def Money.ofDec : DecInput → Money
  | .num n e => .fin (quantizeCents n e)
  | .posInf => .posInf
  | .negInf => .negInf
  | .nan => .nan

/-- Decimal string of an integer number of cents, as produced by
`f"{self:.2f}"` on a Decimal quantized to 2 places: optional sign, integer
part, dot, exactly two fractional digits. -/
def centsToString (c : Int) : String :=
  let a := c.natAbs
  let whole := a / 100
  let frac := a % 100
  (if c < 0 then "-" else "") ++ toString whole ++ "." ++
    (if frac < 10 then "0" else "") ++ toString frac

/-- Model of `Money.__str__` / `Money.to_string`. -/
def Money.to_string : Money → String
  | .fin c => centsToString c
  | .posInf => "Infinity"
  | .negInf => "-Infinity"
  | .nan => "NaN"

/-- The decimal value denoted by the output of `Money.to_string`, when fed
back to the `Money` constructor: the string of a finite value with two
fractional digits denotes `cents * 10 ^ (-2)`, and the strings "Infinity",
"-Infinity", "NaN" are parsed by `Decimal` as the corresponding special
values. -/
def Money.strDecimalValue : Money → DecInput
  | .fin c => .num c 2
  | .posInf => .posInf
  | .negInf => .negInf
  | .nan => .nan

/-- Model of `Money.is_zero`: `not (self.is_infinite() or self.is_nan()) and
self == Decimal("0.00")`.  The conjunction short-circuits, so no NaN
comparison is ever performed and the method is total. -/
def Money.is_zero : Money → Bool
  | .fin c => decide (c = 0)
  | _ => false

/-- Model of `Money.is_positive`: `self > Decimal("0.00")`.  Python decimal ordered
comparison signals InvalidOperation when an operand is NaN, and by default
InvalidOperation is trapped, so on NaN the method raises instead of
returning a Bool. -/
def Money.is_positive : Money → Except String Bool
  | .fin c => .ok (decide (0 < c))
  | .posInf => .ok true
  | .negInf => .ok false
  | .nan => .error "InvalidOperation"

/-- Model of `Money.is_negative`: `self < Decimal("0.00")`; raises InvalidOperation
on NaN like `is_positive`. -/
def Money.is_negative : Money → Except String Bool
  | .fin c => .ok (decide (c < 0))
  | .posInf => .ok false
  | .negInf => .ok true
  | .nan => .error "InvalidOperation"

/-- Model of `Money.__sub__`: Decimal subtraction followed by re-quantization.
Quiet NaN propagates; Infinity minus Infinity of the same sign signals
InvalidOperation (raised under the default context). -/
def Money.sub : Money → Money → Except String Money
  | .nan, _ => .ok .nan
  | _, .nan => .ok .nan
  | .posInf, .posInf => .error "InvalidOperation"
  | .negInf, .negInf => .error "InvalidOperation"
  | .posInf, _ => .ok .posInf
  | .negInf, _ => .ok .negInf
  | .fin _, .posInf => .ok .negInf
  | .fin _, .negInf => .ok .posInf
  | .fin a, .fin b => .ok (.fin (quantizeCents (a - b) 2))

/-! Data model (src/app/models/booking.py, src/app/models/hotel.py) -/

/-- Enum `BookingType`. -/
inductive BookingType where
  | online
  | walk_in
deriving DecidableEq

/-- Enum `BookingStatus`. -/
inductive BookingStatus where
  | pending
  | confirmed
  | cancelled
  | completed
  | checked_in
  | checked_out
  | no_show
deriving DecidableEq

/-- Document model `Booking` (fields of `Booking` plus `id`, `createdAt`,
`updatedAt` inherited from `BaseMongoModel`). -/
structure Booking where
  id : String
  hotel_id : String
  suite_id : String
  guest_name : String
  guest_phone : String
  guest_email : Option String
  check_in_date : Int
  check_out_date : Int
  booking_type : BookingType
  status : BookingStatus
  total_amount : Money
  discount_amount : Money
  booked_by_owner_id : Option String
  special_requests : Option String
  number_of_guests : Nat
  createdAt : Int
  updatedAt : Int
deriving DecidableEq

/-- The fields of `Hotel` consumed by the booking engine. -/
structure Hotel where
  id : String
  owner_id : String
  is_open : Bool
deriving DecidableEq

/-- The fields of `HotelSuite` consumed by the booking engine. -/
structure HotelSuite where
  id : String
  hotel_id : String
  room_number : Nat
  is_available : Bool
deriving DecidableEq

/-! BookingRepository (src/app/repositories/booking.py) -/

/-- The conflict predicate of `check_suite_availability`: same suite,
status not in `[CANCELLED, COMPLETED, CHECKED_OUT]` (the `NotIn` filter),
`check_in_date < check_out` and `check_out_date > check_in`. -/
def conflictsWith (suite_id : String) (check_in check_out : Int) (b : Booking) : Bool :=
  decide (b.suite_id = suite_id)
    && !(decide (b.status = .cancelled) || decide (b.status = .completed)
          || decide (b.status = .checked_out))
    && decide (b.check_in_date < check_out)
    && decide (b.check_out_date > check_in)

/-- Model of `BookingRepository.check_suite_availability`: collect the conflicting
bookings and return whether the list is empty. -/
def check_suite_availability (bookings : List Booking) (suite_id : String)
    (check_in check_out : Int) : Bool :=
  decide ((bookings.filter (conflictsWith suite_id check_in check_out)).length = 0)

/-- Model of `BookingRepository.update_booking_status`: look the booking up by id
(`Booking.get`), set `status` and `updatedAt := now`, save (replace by id
in the store), and return the updated booking; "Booking not found" when the
id resolves to nothing. -/
def update_booking_status (now : Int) (store : List Booking) (booking_id : String)
    (status : BookingStatus) : List Booking × Except String Booking :=
  match store.find? (fun b => decide (b.id = booking_id)) with
  | none => (store, .error "Booking not found")
  | some b =>
      let b2 : Booking := { b with status := status, updatedAt := now }
      (store.map (fun x => if x.id = booking_id then b2 else x), .ok b2)

/-! BookingService lifecycle operations (src/app/services/booking.py)

Each lifecycle operation first rejects a blank booking id
(`if not booking_id or not booking_id.strip()`), looks the booking up,
checks its status guard and delegates to
`BookingRepository.update_booking_status`. -/

/-- Python `not s or not s.strip()` on a string: the string is empty or
consists solely of whitespace characters (`str.strip` with no argument
removes whitespace). -/
def isBlank (s : String) : Bool := s.toList.all (fun c => c.isWhitespace)

/-- Model of `BookingService.confirm_booking`: guard `status == PENDING`. -/
def confirm_booking (now : Int) (store : List Booking) (booking_id : String) :
    List Booking × Except String Booking :=
  if isBlank booking_id then (store, .error "Invalid booking_id")
  else
    match store.find? (fun b => decide (b.id = booking_id)) with
    | none => (store, .error "Booking not found")
    | some b =>
        if b.status = BookingStatus.pending then
          update_booking_status now store booking_id .confirmed
        else (store, .error "Only pending bookings can be confirmed")

/-- Model of `BookingService.check_in_guest`: guard `status in [CONFIRMED, PENDING]`. -/
def check_in_guest (now : Int) (store : List Booking) (booking_id : String) :
    List Booking × Except String Booking :=
  if isBlank booking_id then (store, .error "Invalid booking_id")
  else
    match store.find? (fun b => decide (b.id = booking_id)) with
    | none => (store, .error "Booking not found")
    | some b =>
        if b.status = BookingStatus.confirmed ∨ b.status = BookingStatus.pending then
          update_booking_status now store booking_id .checked_in
        else (store, .error "Booking must be confirmed before check-in")

/-- Model of `BookingService.check_out_guest`: guard `status == CHECKED_IN`. -/
def check_out_guest (now : Int) (store : List Booking) (booking_id : String) :
    List Booking × Except String Booking :=
  if isBlank booking_id then (store, .error "Invalid booking_id")
  else
    match store.find? (fun b => decide (b.id = booking_id)) with
    | none => (store, .error "Booking not found")
    | some b =>
        if b.status = BookingStatus.checked_in then
          update_booking_status now store booking_id .checked_out
        else (store, .error "Guest must be checked in before checkout")

/-- Model of `BookingService.cancel_booking`: rejected only when
`status in [COMPLETED, CHECKED_OUT]`. -/
def cancel_booking (now : Int) (store : List Booking) (booking_id : String) :
    List Booking × Except String Booking :=
  if isBlank booking_id then (store, .error "Invalid booking_id")
  else
    match store.find? (fun b => decide (b.id = booking_id)) with
    | none => (store, .error "Booking not found")
    | some b =>
        if b.status = BookingStatus.completed ∨ b.status = BookingStatus.checked_out then
          (store, .error "Cannot cancel a completed booking")
        else update_booking_status now store booking_id .cancelled

/-! Booking creation (src/app/services/booking.py) -/

/-- The external collaborators and the booking store seen by the booking
engine: hotels and suites (via `HotelRepository`) and the bookings
collection. -/
structure Env where
  hotels : List Hotel
  suites : List HotelSuite
  bookings : List Booking
deriving DecidableEq

/-- The fields of the incoming `booking_data` dict / the
`HotelSuiteBookingRequest` model that the creation code reads.
`booking_type` carries the request default `ONLINE` when absent. -/
structure BookingRequest where
  hotel_id : String
  suite_id : String
  guest_name : String
  guest_phone : String
  guest_email : Option String
  check_in_date : Int
  check_out_date : Int
  booking_type : BookingType
  total_amount : Money
  number_of_guests : Nat
  special_requests : Option String
deriving DecidableEq

/-- Model of `BookingService.create_booking`: hotel lookup, `is_open` check, suite
lookup, `is_available` check, date-conflict check, then persist a PENDING
booking.  `now` is the creation timestamp and `newId` the id Mongo assigns
to the new document.  There is no check-in/check-out date-order validation
in this function. -/
def create_booking (now : Int) (newId : String) (env : Env) (rq : BookingRequest) :
    Env × Except String Booking :=
  match env.hotels.find? (fun h => decide (h.id = rq.hotel_id)) with
  | none => (env, .error "Hotel not found")
  | some hotel =>
    if !hotel.is_open then (env, .error "Hotel is currently closed")
    else
      match env.suites.find? (fun s => decide (s.id = rq.suite_id)) with
      | none => (env, .error "Suite not found")
      | some suite =>
        if !suite.is_available then (env, .error "Suite is not available")
        else if !check_suite_availability env.bookings rq.suite_id
                  rq.check_in_date rq.check_out_date then
          (env, .error "Suite is not available for the selected dates")
        else
          let b : Booking :=
            { id := newId, hotel_id := rq.hotel_id, suite_id := rq.suite_id,
              guest_name := rq.guest_name, guest_phone := rq.guest_phone,
              guest_email := rq.guest_email,
              check_in_date := rq.check_in_date, check_out_date := rq.check_out_date,
              booking_type := rq.booking_type, status := .pending,
              total_amount := rq.total_amount, discount_amount := .fin 0,
              booked_by_owner_id := none, special_requests := rq.special_requests,
              number_of_guests := rq.number_of_guests,
              createdAt := now, updatedAt := now }
          ({ env with bookings := env.bookings ++ [b] }, .ok b)

/-- Model of `BookingService.create_walk_in_booking`: hotel lookup, owner check,
suite lookup, `is_available` check, date-conflict check, then persist a
CHECKED_IN WALK_IN booking with `booked_by_owner_id` set.  There is no
`hotel.is_open` check and no date-order validation in this function. -/
def create_walk_in_booking (now : Int) (newId : String) (owner_id : String)
    (env : Env) (rq : BookingRequest) : Env × Except String Booking :=
  match env.hotels.find? (fun h => decide (h.id = rq.hotel_id)) with
  | none => (env, .error "Hotel not found")
  | some hotel =>
    if hotel.owner_id ≠ owner_id then
      (env, .error "Not authorized to create walk-in booking for this hotel")
    else
      match env.suites.find? (fun s => decide (s.id = rq.suite_id)) with
      | none => (env, .error "Suite not found")
      | some suite =>
        if !suite.is_available then (env, .error "Suite is not available")
        else if !check_suite_availability env.bookings rq.suite_id
                  rq.check_in_date rq.check_out_date then
          (env, .error "Suite is not available for the selected dates")
        else
          let b : Booking :=
            { id := newId, hotel_id := rq.hotel_id, suite_id := rq.suite_id,
              guest_name := rq.guest_name, guest_phone := rq.guest_phone,
              guest_email := rq.guest_email,
              check_in_date := rq.check_in_date, check_out_date := rq.check_out_date,
              booking_type := .walk_in, status := .checked_in,
              total_amount := rq.total_amount, discount_amount := .fin 0,
              booked_by_owner_id := some owner_id,
              special_requests := rq.special_requests,
              number_of_guests := rq.number_of_guests,
              createdAt := now, updatedAt := now }
          ({ env with bookings := env.bookings ++ [b] }, .ok b)

/-! HotelSuiteService.book_suite (src/app/services/hotel_suites.py)

`book_suite` raises Python exceptions of two kinds on the paths the claims
exercise: `ValueError` for its own validation failures, and the dynamic
`AttributeError` produced by the attribute access
`BookingService.get_booking_by_suite_id` — the `BookingService` class body
defines no attribute of that name (the method of that name is defined on
`BookingRepository`). -/

/-- The method names defined in the body of `class BookingService`
(src/app/services/booking.py), in source order. -/
def bookingServiceMethods : List String :=
  ["create_booking", "create_walk_in_booking", "get_booking_details",
   "cancel_booking", "confirm_booking", "check_in_guest", "check_out_guest",
   "get_booked_rooms_by_hotel", "get_bookings_for_merchant",
   "check_suite_availability_for_dates"]

/-- The method names defined in the body of `class BookingRepository`
(src/app/repositories/booking.py), in source order. -/
def bookingRepositoryMethods : List String :=
  ["create_booking", "get_booking_by_id", "get_booking_by_suite_id",
   "get_bookings_by_hotel_id", "get_bookings_by_guest_phone",
   "get_bookings_by_suite_id", "get_bookings_by_owner_id",
   "update_booking_status", "get_bookings_by_date_range", "delete_booking",
   "get_bookings_by_status", "check_suite_availability", "update_booking"]

/-- A raised Python exception, by class. -/
inductive PyError where
  | valueError (msg : String)
  | attributeError (msg : String)
  | invalidOperation (msg : String)
deriving DecidableEq

/-- Response model `HotelSuiteBookingResponse` (src/app/models/booking.py). -/
structure HotelSuiteBookingResponse where
  booking_id : String
  hotel_id : String
  suite_id : String
  suite_room_number : Nat
  guest_name : String
  guest_phone : String
  guest_email : Option String
  check_in_date : Int
  check_out_date : Int
  booking_type : BookingType
  status : BookingStatus
  total_amount : Money
  discount_amount : Money
  final_amount : Money
  number_of_guests : Nat
  special_requests : Option String
  booked_by_owner_id : Option String
deriving DecidableEq

/-- The tail of `book_suite` after the current-booking check: call
`BookingService.create_booking`, flip `suite.is_available` to `False` and
save the suite, then build the response with
`final_amount = total_amount - discount_amount` (Money subtraction). -/
def book_suite_finish (now : Int) (newId : String) (env : Env)
    (suite_id : String) (suite : HotelSuite) (rq : BookingRequest) :
    Env × Except PyError HotelSuiteBookingResponse :=
  match create_booking now newId env rq with
  | (env2, .error e) => (env2, .error (.valueError e))
  | (env2, .ok b) =>
    let suite2 : HotelSuite := { suite with is_available := false }
    let env3 : Env :=
      { env2 with suites := env2.suites.map (fun s => if s.id = suite_id then suite2 else s) }
    match Money.sub b.total_amount b.discount_amount with
    | .error e => (env3, .error (.invalidOperation e))
    | .ok fin_amt =>
      (env3, .ok
        { booking_id := b.id, hotel_id := b.hotel_id, suite_id := b.suite_id,
          suite_room_number := suite.room_number,
          guest_name := b.guest_name, guest_phone := b.guest_phone,
          guest_email := b.guest_email,
          check_in_date := b.check_in_date, check_out_date := b.check_out_date,
          booking_type := b.booking_type, status := b.status,
          total_amount := b.total_amount, discount_amount := b.discount_amount,
          final_amount := fin_amt,
          number_of_guests := b.number_of_guests,
          special_requests := b.special_requests,
          booked_by_owner_id := b.booked_by_owner_id })

/-- Model of `HotelSuiteService.book_suite`: suite lookup, date-order check, then
the attribute access `BookingService.get_booking_by_suite_id(suite_id)`.
Because `bookingServiceMethods` does not contain that name, the access
raises `AttributeError`; the remainder of the function (current-booking
check, booking creation, availability flip, response construction) is
translated behind that guard but is unreachable. -/
def book_suite (now : Int) (newId : String) (env : Env) (suite_id : String)
    (rq : BookingRequest) : Env × Except PyError HotelSuiteBookingResponse :=
  match env.suites.find? (fun s => decide (s.id = suite_id)) with
  | none => (env, .error (.valueError "Suite not found"))
  | some suite =>
    if rq.check_in_date ≥ rq.check_out_date then
      (env, .error (.valueError "Check-in date must be before check-out date"))
    else if !(bookingServiceMethods.contains "get_booking_by_suite_id") then
      (env, .error (.attributeError
        "type object BookingService has no attribute get_booking_by_suite_id"))
    else
      match env.bookings.find? (fun b => decide (b.suite_id = suite_id)) with
      | some b0 =>
        if rq.check_in_date < b0.check_out_date then
          (env, .error (.valueError
            "Check-in date must be after the current booking check-out date"))
        else book_suite_finish now newId env suite_id suite rq
      | none => book_suite_finish now newId env suite_id suite rq

/-- Local spelling of `Except.isOk`: whether a Python call returned normally
rather than raising. -/
def isOk {ε α : Type} : Except ε α → Bool
  | .ok _ => true
  | .error _ => false

/-- Field-by-field agreement of two bookings on every `Booking` field
except `status` and `updatedAt`. -/
def agreesExceptStatusUpdatedAt (old new : Booking) : Bool :=
  decide (new.id = old.id)
    && decide (new.hotel_id = old.hotel_id)
    && decide (new.suite_id = old.suite_id)
    && decide (new.guest_name = old.guest_name)
    && decide (new.guest_phone = old.guest_phone)
    && decide (new.guest_email = old.guest_email)
    && decide (new.check_in_date = old.check_in_date)
    && decide (new.check_out_date = old.check_out_date)
    && decide (new.booking_type = old.booking_type)
    && decide (new.total_amount = old.total_amount)
    && decide (new.discount_amount = old.discount_amount)
    && decide (new.booked_by_owner_id = old.booked_by_owner_id)
    && decide (new.special_requests = old.special_requests)
    && decide (new.number_of_guests = old.number_of_guests)
    && decide (new.createdAt = old.createdAt)

/-! Concrete sample data for witnesses and counterexamples -/

/-- A pending ONLINE booking with id "b1" for suite "s1" of hotel "h1". -/
def sampleBooking : Booking :=
  { id := "b1", hotel_id := "h1", suite_id := "s1",
    guest_name := "Ada", guest_phone := "0800", guest_email := none,
    check_in_date := 10, check_out_date := 20,
    booking_type := .online, status := .pending,
    total_amount := .fin 5000, discount_amount := .fin 0,
    booked_by_owner_id := none, special_requests := none,
    number_of_guests := 1, createdAt := 0, updatedAt := 0 }

/-- A booking already in status CANCELLED. -/
def cancelledBooking : Booking := { sampleBooking with id := "c1", status := .cancelled }

/-- A booking in status NO_SHOW. -/
def noShowBooking : Booking := { sampleBooking with id := "n1", status := .no_show }

/-- An open hotel "h1" owned by "o1". -/
def openHotel : Hotel := { id := "h1", owner_id := "o1", is_open := true }

/-- The same hotel with `is_open = False`. -/
def closedHotel : Hotel := { id := "h1", owner_id := "o1", is_open := false }

/-- An available suite "s1" of hotel "h1". -/
def availableSuite : HotelSuite :=
  { id := "s1", hotel_id := "h1", room_number := 101, is_available := true }

/-- Open hotel, available suite, empty booking collection. -/
def openEnv : Env := { hotels := [openHotel], suites := [availableSuite], bookings := [] }

/-- Closed hotel, available suite, empty booking collection. -/
def closedEnv : Env := { hotels := [closedHotel], suites := [availableSuite], bookings := [] }

/-- A well-formed booking request for suite "s1" of hotel "h1",
check-in 10 strictly before check-out 20. -/
def sampleRequest : BookingRequest :=
  { hotel_id := "h1", suite_id := "s1",
    guest_name := "Ada", guest_phone := "0800", guest_email := none,
    check_in_date := 10, check_out_date := 20,
    booking_type := .online, total_amount := .fin 5000,
    number_of_guests := 1, special_requests := none }

/-- The same request with `check_in_date = check_out_date = 5`. -/
def badDatesRequest : BookingRequest :=
  { sampleRequest with check_in_date := 5, check_out_date := 5 }

/-- The booking that `create_walk_in_booking 3 "w6" "o1" openEnv sampleRequest`
persists. -/
def walkInBooking : Booking :=
  { sampleBooking with
    id := "w6", booking_type := .walk_in, status := .checked_in,
    booked_by_owner_id := some "o1", createdAt := 3, updatedAt := 3 }

/-- The result of confirming `sampleBooking` at time 5. -/
def confirmedAt5 : Booking := { sampleBooking with status := .confirmed, updatedAt := 5 }

deriving instance DecidableEq for Except

/-! Theorems -/

/-- Propositional reading of the conflict predicate. -/
theorem conflictsWith_eq_true_iff (sid : String) (ci co : Int) (b : Booking) :
    conflictsWith sid ci co b = true ↔
      b.suite_id = sid ∧
        (b.status ≠ .cancelled ∧ b.status ≠ .completed ∧ b.status ≠ .checked_out) ∧
        b.check_in_date < co ∧ ci < b.check_out_date := by
  simp [conflictsWith, and_assoc, not_or]

/-- Claim C1: `check_suite_availability(suiteId, checkIn, checkOut)` returns
true if and only if no existing booking for that suite both has status
outside CANCELLED/COMPLETED/CHECKED_OUT and satisfies
`check_in_date < checkOut` and `check_out_date > checkIn`; in particular a
booking whose check-out equals the candidate check-in is never a
conflict. -/
theorem C1_check_suite_availability (bs : List Booking) (sid : String) (ci co : Int) :
    (check_suite_availability bs sid ci co = true ↔
      ∀ b ∈ bs, b.suite_id = sid →
        (b.status ≠ .cancelled ∧ b.status ≠ .completed ∧ b.status ≠ .checked_out) →
        ¬(b.check_in_date < co ∧ b.check_out_date > ci))
    ∧ (∀ b : Booking, b.check_out_date = ci → conflictsWith sid ci co b = false) := by
  constructor
  · simp only [check_suite_availability, decide_eq_true_eq, List.length_eq_zero,
      List.filter_eq_nil_iff, conflictsWith_eq_true_iff, gt_iff_lt]
    constructor
    · intro h b hb hsid hstat
      have := h b hb
      tauto
    · intro h b hb
      have := h b hb
      tauto
  · intro b hb
    simp [conflictsWith, hb]

/-- Claim C1, witness: `sampleBooking` checks out at instant 20, so it does
not conflict with a candidate range starting at 20. -/
theorem C1_check_suite_availability_witness :
    conflictsWith "s1" 20 30 sampleBooking = false :=
  (C1_check_suite_availability [sampleBooking] "s1" 20 30).2 sampleBooking (by decide)

/-- Claim C2: for a booking looked up by a non-blank id, `confirm_booking`
succeeds exactly from PENDING, `check_in_guest` exactly from PENDING or
CONFIRMED, `check_out_guest` exactly from CHECKED_IN; outside its guard
each operation fails and leaves the booking store unchanged. -/
theorem C2_lifecycle_guards (now : Int) (store : List Booking) (bid : String) (b : Booking)
    (hbid : isBlank bid = false)
    (hfind : store.find? (fun x => decide (x.id = bid)) = some b) :
    (isOk (confirm_booking now store bid).2 = true ↔ b.status = .pending)
  ∧ (isOk (check_in_guest now store bid).2 = true ↔
      (b.status = .pending ∨ b.status = .confirmed))
  ∧ (isOk (check_out_guest now store bid).2 = true ↔ b.status = .checked_in)
  ∧ (isOk (confirm_booking now store bid).2 = false →
      (confirm_booking now store bid).1 = store)
  ∧ (isOk (check_in_guest now store bid).2 = false →
      (check_in_guest now store bid).1 = store)
  ∧ (isOk (check_out_guest now store bid).2 = false →
      (check_out_guest now store bid).1 = store) := by
  have eu : ∀ st : BookingStatus, update_booking_status now store bid st =
      (store.map (fun x => if x.id = bid then { b with status := st, updatedAt := now } else x),
        .ok { b with status := st, updatedAt := now }) := by
    intro st
    unfold update_booking_status
    rw [hfind]
  have e1 : confirm_booking now store bid =
      if b.status = .pending then update_booking_status now store bid .confirmed
      else (store, .error "Only pending bookings can be confirmed") := by
    unfold confirm_booking
    rw [hbid, hfind]
    simp
  have e2 : check_in_guest now store bid =
      if b.status = .confirmed ∨ b.status = .pending then
        update_booking_status now store bid .checked_in
      else (store, .error "Booking must be confirmed before check-in") := by
    unfold check_in_guest
    rw [hbid, hfind]
    simp
  have e3 : check_out_guest now store bid =
      if b.status = .checked_in then update_booking_status now store bid .checked_out
      else (store, .error "Guest must be checked in before checkout") := by
    unfold check_out_guest
    rw [hbid, hfind]
    simp
  refine ⟨?_, ?_, ?_, ?_, ?_, ?_⟩
  · rw [e1]
    by_cases hs : b.status = .pending <;> simp [hs, eu, isOk]
  · rw [e2]
    by_cases hs : b.status = .confirmed ∨ b.status = .pending
    · simp [hs, eu, isOk]
      tauto
    · simp [hs, isOk]
      tauto
  · rw [e3]
    by_cases hs : b.status = .checked_in <;> simp [hs, eu, isOk]
  · rw [e1]
    by_cases hs : b.status = .pending <;> simp [hs, eu, isOk]
  · rw [e2]
    by_cases hs : b.status = .confirmed ∨ b.status = .pending <;> simp [hs, eu, isOk]
  · rw [e3]
    by_cases hs : b.status = .checked_in <;> simp [hs, eu, isOk]

/-- Claim C2, witness: the pending `sampleBooking` under id "b1". -/
theorem C2_lifecycle_guards_witness :
    isBlank "b1" = false
  ∧ [sampleBooking].find? (fun x => decide (x.id = "b1")) = some sampleBooking
  ∧ (isOk (confirm_booking 5 [sampleBooking] "b1").2 = true ↔
      sampleBooking.status = .pending) :=
  ⟨by decide, by decide,
    (C2_lifecycle_guards 5 [sampleBooking] "b1" sampleBooking (by decide) (by decide)).1⟩

/-- Claim C3, counterexample: a booking already CANCELLED, and one in
NO_SHOW, can both be cancelled again successfully — the claim says these
cancellations must fail. -/
theorem C3_counterexample :
    isOk (cancel_booking 7 [cancelledBooking] "c1").2 = true
  ∧ isOk (cancel_booking 7 [noShowBooking] "n1").2 = true
  ∧ (cancel_booking 7 [cancelledBooking] "c1").2 =
      .ok { cancelledBooking with status := .cancelled, updatedAt := 7 } := by
  refine ⟨?_, ?_, ?_⟩ <;> decide

/-- Claim C3 (amended): `cancel_booking` succeeds exactly when the current
status is outside COMPLETED and CHECKED_OUT — so also from CANCELLED and
NO_SHOW — setting the status to CANCELLED, and fails leaving the store
unchanged from COMPLETED or CHECKED_OUT. -/
theorem C3_cancel_guard (now : Int) (store : List Booking) (bid : String) (b : Booking)
    (hbid : isBlank bid = false)
    (hfind : store.find? (fun x => decide (x.id = bid)) = some b) :
    (isOk (cancel_booking now store bid).2 = true ↔
      (b.status ≠ .completed ∧ b.status ≠ .checked_out))
  ∧ (∀ b2, (cancel_booking now store bid).2 = .ok b2 → b2.status = .cancelled)
  ∧ (isOk (cancel_booking now store bid).2 = false →
      (cancel_booking now store bid).1 = store) := by
  have eu : update_booking_status now store bid .cancelled =
      (store.map
        (fun x => if x.id = bid then { b with status := .cancelled, updatedAt := now } else x),
        .ok { b with status := .cancelled, updatedAt := now }) := by
    unfold update_booking_status
    rw [hfind]
  have e1 : cancel_booking now store bid =
      if b.status = .completed ∨ b.status = .checked_out then
        (store, .error "Cannot cancel a completed booking")
      else update_booking_status now store bid .cancelled := by
    unfold cancel_booking
    rw [hbid, hfind]
    simp
  refine ⟨?_, ?_, ?_⟩ <;> rw [e1] <;>
    by_cases hs : b.status = .completed ∨ b.status = .checked_out <;>
      simp [hs, eu, isOk] <;> tauto

/-- Claim C3, witness: cancelling the pending `sampleBooking`. -/
theorem C3_cancel_guard_witness :
    isBlank "b1" = false
  ∧ [sampleBooking].find? (fun x => decide (x.id = "b1")) = some sampleBooking
  ∧ (isOk (cancel_booking 5 [sampleBooking] "b1").2 = true ↔
      (sampleBooking.status ≠ .completed ∧ sampleBooking.status ≠ .checked_out)) :=
  ⟨by decide, by decide,
    (C3_cancel_guard 5 [sampleBooking] "b1" sampleBooking (by decide) (by decide)).1⟩

/-- Claim C4, counterexample: with the hotel open, the suite available and
no conflicting booking, a request with `check_in_date = check_out_date = 5`
(so checkIn ≥ checkOut) makes both `create_booking` and
`create_walk_in_booking` succeed and persist a booking — the claim says
they must fail with an invalid-argument error and create no booking. -/
theorem C4_counterexample :
    isOk (create_booking 0 "b1" openEnv badDatesRequest).2 = true
  ∧ isOk (create_walk_in_booking 0 "b1" "o1" openEnv badDatesRequest).2 = true
  ∧ badDatesRequest.check_in_date ≥ badDatesRequest.check_out_date
  ∧ (create_booking 0 "b1" openEnv badDatesRequest).1.bookings.length = 1 := by
  decide

/-- Claim C4 (amended): `create_booking` and `create_walk_in_booking`
perform no date-order validation — whenever the hotel is open (resp. the
owner matches), the suite exists and is available, and the conflict check
passes, they succeed even with checkIn ≥ checkOut; the
checkIn < checkOut validation exists only in `HotelSuiteService.book_suite`,
which fails with "Check-in date must be before check-out date" and creates
no booking. -/
theorem C4_no_date_validation (now : Int) (newId owner : String) (env : Env)
    (rq : BookingRequest) (hotel : Hotel) (suite : HotelSuite)
    (hh : env.hotels.find? (fun h => decide (h.id = rq.hotel_id)) = some hotel)
    (hopen : hotel.is_open = true)
    (howner : hotel.owner_id = owner)
    (hs : env.suites.find? (fun s => decide (s.id = rq.suite_id)) = some suite)
    (hav : suite.is_available = true)
    (hconf : check_suite_availability env.bookings rq.suite_id
      rq.check_in_date rq.check_out_date = true)
    (hdates : rq.check_out_date ≤ rq.check_in_date) :
    isOk (create_booking now newId env rq).2 = true
  ∧ isOk (create_walk_in_booking now newId owner env rq).2 = true
  ∧ book_suite now newId env rq.suite_id rq =
      (env, .error (.valueError "Check-in date must be before check-out date")) := by
  refine ⟨?_, ?_, ?_⟩
  · unfold create_booking
    rw [hh, hs]
    simp [hopen, hav, hconf, isOk]
  · unfold create_walk_in_booking
    rw [hh, hs]
    simp [howner, hav, hconf, isOk]
  · unfold book_suite
    simp only [hs]
    rw [if_pos (show rq.check_in_date ≥ rq.check_out_date from hdates)]

/-- Claim C4, witness: the amended statement at the concrete degenerate
request. -/
theorem C4_no_date_validation_witness :
    isOk (create_booking 11 "w4" openEnv badDatesRequest).2 = true
  ∧ isOk (create_walk_in_booking 11 "w4" "o1" openEnv badDatesRequest).2 = true
  ∧ book_suite 11 "w4" openEnv badDatesRequest.suite_id badDatesRequest =
      (openEnv, .error (.valueError "Check-in date must be before check-out date")) :=
  C4_no_date_validation 11 "w4" "o1" openEnv badDatesRequest openHotel availableSuite
    (by decide) (by decide) (by decide) (by decide) (by decide) (by decide) (by decide)

/-- Claim C5, counterexample: on the closed hotel (is_open = false) with
matching owner, available suite and no conflicts, `create_walk_in_booking`
succeeds and persists a booking — the claim says it must fail with
"hotel currently closed" and create no booking. -/
theorem C5_counterexample :
    isOk (create_walk_in_booking 0 "w1" "o1" closedEnv sampleRequest).2 = true
  ∧ (create_walk_in_booking 0 "w1" "o1" closedEnv sampleRequest).1.bookings.length = 1
  ∧ closedHotel.is_open = false := by
  decide

/-- Claim C5 (amended): `create_walk_in_booking` performs no hotel-open
check at all — on an existing closed hotel it succeeds whenever the owner
matches and the other checks pass; only `create_booking` fails with
"Hotel is currently closed" when `hotel.is_open` is false. -/
theorem C5_walk_in_skips_open_check (now : Int) (newId owner : String) (env : Env)
    (rq : BookingRequest) (hotel : Hotel) (suite : HotelSuite)
    (hh : env.hotels.find? (fun h => decide (h.id = rq.hotel_id)) = some hotel)
    (hclosed : hotel.is_open = false)
    (howner : hotel.owner_id = owner)
    (hs : env.suites.find? (fun s => decide (s.id = rq.suite_id)) = some suite)
    (hav : suite.is_available = true)
    (hconf : check_suite_availability env.bookings rq.suite_id
      rq.check_in_date rq.check_out_date = true) :
    isOk (create_walk_in_booking now newId owner env rq).2 = true
  ∧ create_booking now newId env rq = (env, .error "Hotel is currently closed") := by
  constructor
  · unfold create_walk_in_booking
    rw [hh, hs]
    simp [howner, hav, hconf, isOk]
  · unfold create_booking
    rw [hh]
    simp [hclosed]

/-- Claim C5, witness: the amended statement at the concrete closed-hotel
environment. -/
theorem C5_walk_in_skips_open_check_witness :
    isOk (create_walk_in_booking 12 "w5" "o1" closedEnv sampleRequest).2 = true
  ∧ create_booking 12 "w5" closedEnv sampleRequest =
      (closedEnv, .error "Hotel is currently closed") :=
  C5_walk_in_skips_open_check 12 "w5" "o1" closedEnv sampleRequest closedHotel
    availableSuite (by decide) (by decide) (by decide) (by decide) (by decide) (by decide)

/-- Claim C6: every booking returned by a successful
`create_walk_in_booking` has status CHECKED_IN, channel WALK_IN and
`booked_by_owner_id` equal to the calling owner; and when the hotel exists
but its `owner_id` differs from the caller, the operation fails with the
"not authorized" error and creates no booking. -/
theorem C6_walk_in_fields_and_forbidden (now : Int) (newId owner : String)
    (env : Env) (rq : BookingRequest) :
    (∀ b, (create_walk_in_booking now newId owner env rq).2 = .ok b →
        b.status = .checked_in ∧ b.booking_type = .walk_in ∧
        b.booked_by_owner_id = some owner)
  ∧ (∀ hotel, env.hotels.find? (fun h => decide (h.id = rq.hotel_id)) = some hotel →
      hotel.owner_id ≠ owner →
      create_walk_in_booking now newId owner env rq =
        (env, .error "Not authorized to create walk-in booking for this hotel")) := by
  constructor
  · intro b h
    unfold create_walk_in_booking at h
    split at h
    · simp at h
    · split at h
      · simp at h
      · split at h
        · simp at h
        · split at h
          · simp at h
          · split at h
            · simp at h
            · simp at h
              subst h
              exact ⟨rfl, rfl, rfl⟩
  · intro hotel hh hown
    unfold create_walk_in_booking
    rw [hh]
    simp [hown]

/-- Claim C6, witness: a concrete successful walk-in by owner "o1" and a
concrete rejected walk-in by a different owner. -/
theorem C6_walk_in_fields_and_forbidden_witness :
    (walkInBooking.status = .checked_in ∧ walkInBooking.booking_type = .walk_in ∧
      walkInBooking.booked_by_owner_id = some "o1")
  ∧ create_walk_in_booking 3 "w6" "intruder" openEnv sampleRequest =
      (openEnv, .error "Not authorized to create walk-in booking for this hotel") :=
  ⟨(C6_walk_in_fields_and_forbidden 3 "w6" "o1" openEnv sampleRequest).1
      walkInBooking (by decide),
    (C6_walk_in_fields_and_forbidden 3 "w6" "intruder" openEnv sampleRequest).2
      openHotel (by decide) (by decide)⟩

/-- Claim C7: evaluation at the failing input.  On the open hotel with an
available suite, valid dates and no conflicts, `create_booking` itself
succeeds with a PENDING booking, but the book-suite operation — the only
code that would flip `suite.is_available` to false — raises AttributeError
before creating anything, leaving the environment (hence the availability
flag) unchanged. -/
theorem C7_book_suite_crashes :
    book_suite 0 "b1" openEnv "s1" sampleRequest =
      (openEnv, .error (.attributeError
        "type object BookingService has no attribute get_booking_by_suite_id"))
  ∧ (create_booking 0 "b1" openEnv sampleRequest).2 = .ok sampleBooking
  ∧ sampleBooking.status = .pending
  ∧ availableSuite.is_available = true
  ∧ sampleRequest.check_in_date < sampleRequest.check_out_date := by
  decide

/-- Claim C8: `get_booking_by_suite_id` is a method of `BookingRepository`
but not of `BookingService`, so every call of `book_suite` that passes the
suite-existence and date-order checks raises AttributeError at the
attribute access `BookingService.get_booking_by_suite_id`, before creating
any booking and before touching `suite.is_available`. -/
theorem C8_missing_service_method :
    bookingRepositoryMethods.contains "get_booking_by_suite_id" = true
  ∧ bookingServiceMethods.contains "get_booking_by_suite_id" = false
  ∧ ∀ (now : Int) (newId : String) (env : Env) (sid : String) (rq : BookingRequest)
      (suite : HotelSuite),
      env.suites.find? (fun s => decide (s.id = sid)) = some suite →
      rq.check_in_date < rq.check_out_date →
      book_suite now newId env sid rq =
        (env, .error (.attributeError
          "type object BookingService has no attribute get_booking_by_suite_id")) := by
  refine ⟨by decide, by decide, ?_⟩
  intro now newId env sid rq suite hs hlt
  unfold book_suite
  simp only [hs]
  rw [if_neg (show ¬ rq.check_in_date ≥ rq.check_out_date from not_le.mpr hlt)]
  have hm : "get_booking_by_suite_id" ∉ bookingServiceMethods := by decide
  simp [hm]

/-- Claim C8, witness: the concrete valid request against suite "s1". -/
theorem C8_missing_service_method_witness :
    openEnv.suites.find? (fun s => decide (s.id = "s1")) = some availableSuite
  ∧ sampleRequest.check_in_date < sampleRequest.check_out_date
  ∧ book_suite 9 "w8" openEnv "s1" sampleRequest =
      (openEnv, .error (.attributeError
        "type object BookingService has no attribute get_booking_by_suite_id")) :=
  ⟨by decide, by decide,
    C8_missing_service_method.2.2 9 "w8" openEnv "s1" sampleRequest availableSuite
      (by decide) (by decide)⟩

/-- Claim C9: every successful lifecycle transition (confirm, check-in,
check-out, cancel) returns the booking with `updatedAt` set to the current
time, the status set to the target state, and every other field
unchanged. -/
theorem C9_transition_frame (now : Int) (store : List Booking) (bid : String) (b : Booking)
    (hfind : store.find? (fun x => decide (x.id = bid)) = some b) :
    (∀ b2, (confirm_booking now store bid).2 = .ok b2 →
        b2.updatedAt = now ∧ b2.status = .confirmed ∧
        agreesExceptStatusUpdatedAt b b2 = true)
  ∧ (∀ b2, (check_in_guest now store bid).2 = .ok b2 →
        b2.updatedAt = now ∧ b2.status = .checked_in ∧
        agreesExceptStatusUpdatedAt b b2 = true)
  ∧ (∀ b2, (check_out_guest now store bid).2 = .ok b2 →
        b2.updatedAt = now ∧ b2.status = .checked_out ∧
        agreesExceptStatusUpdatedAt b b2 = true)
  ∧ (∀ b2, (cancel_booking now store bid).2 = .ok b2 →
        b2.updatedAt = now ∧ b2.status = .cancelled ∧
        agreesExceptStatusUpdatedAt b b2 = true) := by
  have eu : ∀ st : BookingStatus, update_booking_status now store bid st =
      (store.map (fun x => if x.id = bid then { b with status := st, updatedAt := now } else x),
        .ok { b with status := st, updatedAt := now }) := by
    intro st
    unfold update_booking_status
    rw [hfind]
  refine ⟨?_, ?_, ?_, ?_⟩ <;> intro b2 h
  · unfold confirm_booking at h
    by_cases hb : isBlank bid = true
    · simp [hb] at h
    · rw [eq_false_of_ne_true hb] at h
      rw [hfind] at h
      simp at h
      by_cases hs : b.status = .pending
      · rw [if_pos hs, eu] at h
        simp at h
        subst h
        simp [agreesExceptStatusUpdatedAt]
      · rw [if_neg hs] at h
        simp at h
  · unfold check_in_guest at h
    by_cases hb : isBlank bid = true
    · simp [hb] at h
    · rw [eq_false_of_ne_true hb] at h
      rw [hfind] at h
      simp at h
      by_cases hs : b.status = .confirmed ∨ b.status = .pending
      · rw [if_pos hs, eu] at h
        simp at h
        subst h
        simp [agreesExceptStatusUpdatedAt]
      · rw [if_neg hs] at h
        simp at h
  · unfold check_out_guest at h
    by_cases hb : isBlank bid = true
    · simp [hb] at h
    · rw [eq_false_of_ne_true hb] at h
      rw [hfind] at h
      simp at h
      by_cases hs : b.status = .checked_in
      · rw [if_pos hs, eu] at h
        simp at h
        subst h
        simp [agreesExceptStatusUpdatedAt]
      · rw [if_neg hs] at h
        simp at h
  · unfold cancel_booking at h
    by_cases hb : isBlank bid = true
    · simp [hb] at h
    · rw [eq_false_of_ne_true hb] at h
      rw [hfind] at h
      simp at h
      by_cases hs : b.status = .completed ∨ b.status = .checked_out
      · rw [if_pos hs] at h
        simp at h
      · rw [if_neg hs, eu] at h
        simp at h
        subst h
        simp [agreesExceptStatusUpdatedAt]

/-- Claim C9, witness: confirming the pending `sampleBooking` at time 5. -/
theorem C9_transition_frame_witness :
    confirmedAt5.updatedAt = 5 ∧ confirmedAt5.status = .confirmed ∧
      agreesExceptStatusUpdatedAt sampleBooking confirmedAt5 = true :=
  (C9_transition_frame 5 [sampleBooking] "b1" sampleBooking (by decide)).1
    confirmedAt5 (by decide)

/-- Quantizing an exact 2-decimal value is the identity: the construction
is a retraction onto 2-decimal values. -/
theorem quantizeCents_self (c : Int) : quantizeCents c 2 = c := by
  unfold quantizeCents
  norm_num
  omega

/-- Claim C10, counterexample: `is_positive` and `is_negative` on the NaN
Money raise InvalidOperation instead of returning false, so they are not
total and NaN is not "never positive / never negative" in the claimed
returns-false sense. -/
theorem C10_counterexample :
    Money.is_positive Money.nan = .error "InvalidOperation"
  ∧ Money.is_negative Money.nan = .error "InvalidOperation"
  ∧ Money.is_positive Money.nan ≠ .ok false
  ∧ Money.is_negative Money.nan ≠ .ok false := by
  decide

/-- Claim C10 (amended): construction is a retraction onto 2-decimal
values — rebuilding a finite Money from its printed string yields the same
value, and construction rounds half-up so `Money("2.005")` prints as
"2.01"; `is_zero` is total, false on infinities and NaN and true exactly on
finite zero; `is_positive`/`is_negative` are correct on finite values and
infinities but raise InvalidOperation on NaN. -/
theorem C10_money_semantics (n : Int) (e : Nat) :
    Money.ofDec ((Money.ofDec (.num n e)).strDecimalValue) = Money.ofDec (.num n e)
  ∧ Money.ofDec (.num 2005 3) = .fin 201
  ∧ (Money.fin 201).to_string = "2.01"
  ∧ (∀ c : Int, (Money.fin c).is_zero = decide (c = 0))
  ∧ Money.posInf.is_zero = false ∧ Money.negInf.is_zero = false
  ∧ Money.nan.is_zero = false
  ∧ Money.posInf.is_positive = .ok true ∧ Money.negInf.is_positive = .ok false
  ∧ Money.nan.is_positive = .error "InvalidOperation"
  ∧ Money.posInf.is_negative = .ok false ∧ Money.negInf.is_negative = .ok true
  ∧ Money.nan.is_negative = .error "InvalidOperation"
  ∧ (∀ c : Int, (Money.fin c).is_positive = .ok (decide (0 < c))
      ∧ (Money.fin c).is_negative = .ok (decide (c < 0))) := by
  refine ⟨?_, by decide, by decide, fun c => rfl, rfl, rfl, rfl, rfl, rfl, rfl, rfl, rfl,
    rfl, fun c => ⟨rfl, rfl⟩⟩
  simp [Money.ofDec, Money.strDecimalValue, quantizeCents_self]

/-- Claim C10, witness: the round-trip at the half-up example 2.005. -/
theorem C10_money_semantics_witness :
    Money.ofDec ((Money.ofDec (.num 2005 3)).strDecimalValue) =
      Money.ofDec (.num 2005 3) :=
  (C10_money_semantics 2005 3).1

end MyDove
